import Mathlib

/-!
Shallow embedding of the price-research script (`src/main.py`).

Conventions of the embedding:
* Python strings are Lean `String`s; all character-level work is done on
  `String.data` (`List Char`) with structurally recursive functions so that
  concrete evaluations go through the kernel.
* Python floats are modelled as `ℚ`.  The script only ever compares and
  stores prices, so the ordered-field fragment of `float` is what matters;
  `float(str)` is modelled by a decimal/exponent literal parser (the exotic
  `float` forms — `inf`, `nan`, underscore separators — never arise here).
* A raised Python exception is an explicit `PyError` value; `try/except`
  becomes a `match` on it.  Mutation of `dict_products` is explicit state
  passing, and a loop body that can raise returns the dictionary as mutated
  at the point the exception escaped, mirroring in-place mutation.
* The browser is an environment: for each criterion iteration it says
  whether the search input / shopping button were found and which result
  cards were enumerated.  A card field that is `none` models
  `NoSuchElementException` when that sub-element is looked up.
-/

/-- The Python exception classes the script distinguishes. -/
inductive PyError
  | valueError
  | indexError
  | noSuchElement
  | attributeError
  | timeoutError
deriving DecidableEq

/-- Boolean prefix test on character lists. -/
def isPrefixOfB : List Char → List Char → Bool
  | [], _ => true
  | _ :: _, [] => false
  | a :: as, b :: bs => a == b && isPrefixOfB as bs

/-- Python `needle in haystack` on strings: substring occurrence. -/
def containsSubL (needle : List Char) : List Char → Bool
  | [] => isPrefixOfB needle []
  | b :: bs => isPrefixOfB needle (b :: bs) || containsSubL needle bs

/-- Python `term in name` for `String`s. -/
def containsSub (needle haystack : String) : Bool :=
  containsSubL needle.data haystack.data

/-- Python `str.replace('R$', '')`: delete every (leftmost, non-overlapping)
occurrence of the two-character currency marker. -/
def removeRS : List Char → List Char
  | 'R' :: '$' :: rest => removeRS rest
  | c :: rest => c :: removeRS rest
  | [] => []

/-- Drop leading whitespace. -/
def stripLeft : List Char → List Char
  | [] => []
  | c :: rest => if c.isWhitespace then stripLeft rest else c :: rest

/-- Python `str.strip()`: drop whitespace at both ends. -/
def pyStrip (l : List Char) : List Char :=
  ((stripLeft ((stripLeft l.reverse)).reverse).reverse).reverse

/-- Helper for `pySplitWs`: accumulate the current word (reversed). -/
def pySplitWsAux : List Char → List Char → List (List Char)
  | [], acc => if acc.isEmpty then [] else [acc.reverse]
  | c :: rest, acc =>
    if c.isWhitespace then
      if acc.isEmpty then pySplitWsAux rest []
      else acc.reverse :: pySplitWsAux rest []
    else pySplitWsAux rest (c :: acc)

/-- Python `str.split()` with no separator: split on whitespace runs,
dropping empty pieces. -/
def pySplitWs (l : List Char) : List (List Char) :=
  pySplitWsAux l []

/-- Python `str.split(sep)` for a one-character separator: empty pieces are
kept, and the empty string yields `[""]`. -/
def splitOnChar (sep : Char) : List Char → List (List Char)
  | [] => [[]]
  | c :: rest =>
    if c = sep then [] :: splitOnChar sep rest
    else
      match splitOnChar sep rest with
      | [] => [[c]]
      | t :: ts => (c :: t) :: ts

/-- Python `str.split(', ')`: split on the two-character comma-space
separator, leftmost and non-overlapping, keeping empty pieces. -/
def splitCommaSpace : List Char → List (List Char)
  | ',' :: ' ' :: rest => [] :: splitCommaSpace rest
  | c :: rest =>
    match splitCommaSpace rest with
    | [] => [[c]]
    | t :: ts => (c :: t) :: ts
  | [] => [[]]

/-- Numeric value of a digit run (most significant first). -/
def digitsVal (ds : List Char) : ℕ :=
  ds.foldl (fun a c => 10 * a + (c.toNat - '0'.toNat)) 0

/-- Split a token at the first `e`/`E`, returning the mantissa part and the
exponent part when present. -/
def splitAtExp : List Char → List Char × Option (List Char)
  | [] => ([], none)
  | c :: rest =>
    if c = 'e' ∨ c = 'E' then ([], some rest)
    else
      match splitAtExp rest with
      | (m, e) => (c :: m, e)

/-- A non-empty all-digit run, as a number. -/
def parseDigits (l : List Char) : Option ℕ :=
  if l ≠ [] ∧ l.all Char.isDigit then some (digitsVal l) else none

/-- Mantissa of a `float` literal as a numerator/denominator pair: digits
with at most one dot and at least one digit overall (`"1234"`,
`"1234.56"`, `".5"`, `"5."`).  Kept unreduced so that the single `mkRat`
at the end of `pyFloatTok` is the only rational construction. -/
def parseMantissa (l : List Char) : Option (ℤ × ℕ) :=
  match splitOnChar '.' l with
  | [ip] =>
    if ip ≠ [] ∧ ip.all Char.isDigit then some ((digitsVal ip : ℤ), 1) else none
  | [ip, fp] =>
    if ip.all Char.isDigit ∧ fp.all Char.isDigit ∧ (ip ≠ [] ∨ fp ≠ []) then
      some ((digitsVal ip * 10 ^ fp.length + digitsVal fp : ℤ), 10 ^ fp.length)
    else none
  | _ => none

/-- Signed integer exponent of a `float` literal. -/
def parseExp (l : List Char) : Option ℤ :=
  match l with
  | '+' :: r => (parseDigits r).map Int.ofNat
  | '-' :: r => (parseDigits r).map (fun n => -(n : ℤ))
  | _ => (parseDigits l).map Int.ofNat

/-- Scale a numerator/denominator pair by `10 ^ z`. -/
def applyExp (p : ℤ × ℕ) (z : ℤ) : ℤ × ℕ :=
  match z with
  | .ofNat n => (p.1 * 10 ^ n, p.2)
  | .negSucc n => (p.1, p.2 * 10 ^ (n + 1))

/-- Unsigned `float` literal: mantissa with optional exponent. -/
def pyFloatMag (l : List Char) : Option (ℤ × ℕ) :=
  match splitAtExp l with
  | (m, none) => parseMantissa m
  | (m, some ex) =>
    match parseMantissa m, parseExp ex with
    | some v, some z => some (applyExp v z)
    | _, _ => none

/-- A `float` literal with optional sign, as a rational. -/
def pyFloatTok (l : List Char) : Option ℚ :=
  match l with
  | '+' :: rest => (pyFloatMag rest).map (fun p => mkRat p.1 p.2)
  | '-' :: rest => (pyFloatMag rest).map (fun p => mkRat (-p.1) p.2)
  | _ => (pyFloatMag l).map (fun p => mkRat p.1 p.2)

/-- Python `float(s)` on a character list: tolerates surrounding whitespace,
raises `ValueError` on anything that is not a decimal/exponent literal. -/
def pyFloatL (l : List Char) : Except PyError ℚ :=
  match pyFloatTok (pyStrip l) with
  | some q => .ok q
  | none => .error .valueError

/-- Python `float(s)` on a `String`. -/
def pyFloat (s : String) : Except PyError ℚ :=
  pyFloatL s.data

/-- The normalisation pipeline of `format_prices`:
`value.replace('R$', '').replace('.', '').replace(',', '.').strip()`. -/
def normalizePrice (l : List Char) : List Char :=
  pyStrip (((removeRS l).filter (fun c => c ≠ '.')).map
    (fun c => if c = ',' then '.' else c))

/-- The whitespace-delimited tokens of the normalised price text
(`f_value.split()`). -/
def priceTokens (l : List Char) : List (List Char) :=
  pySplitWs (normalizePrice l)

/-- `format_prices` (src/main.py:145): normalise the Brazilian-style price
text, take the first whitespace token (`split()[0]`, which raises
`IndexError` when there is no token at all), and apply `float` (which
raises `ValueError` on a non-numeric token). -/
def format_prices (s : String) : Except PyError ℚ :=
  match priceTokens s.data with
  | [] => .error .indexError
  | t :: _ => pyFloatL t

/-- A price text "contains a numeric token" when some whitespace token of
its normalised form parses as a `float`. -/
def hasNumericToken (s : String) : Bool :=
  (priceTokens s.data).any (fun t => (pyFloatL t).isOk)

deriving instance DecidableEq for Except

/-- One accepted product: the value stored in `dict_products`.  The script
stores the price inside the f-string `'R$' + str(product_price)`; the
embedding carries the numeric price itself (the formatting is injective on
the prices at hand and plays no further role). -/
structure ProductInfo where
  product_name : String
  product_price : ℚ
  product_link : String
deriving DecidableEq

/-- `dict_products`: a Python `dict` as an insertion-ordered association
list with unique keys. -/
abbrev Dict := List (String × ProductInfo)

/-- Python `dict[k] = v`: overwrite in place when the key exists (keeping
its position), append otherwise. -/
def insertLWW (d : Dict) (k : String) (v : ProductInfo) : Dict :=
  if d.any (fun p => p.1 == k) then
    d.map (fun p => if p.1 == k then (k, v) else p)
  else d ++ [(k, v)]

/-- A spreadsheet cell: the script meets numbers and strings in the price
columns (`float(cell)` succeeds on a number and may raise `ValueError` on
a string). -/
inductive Cell
  | num (q : ℚ)
  | str (s : String)
deriving DecidableEq

/-- `float(cell)`. -/
def pyFloatCell : Cell → Except PyError ℚ
  | .num q => .ok q
  | .str s => pyFloat s

/-- One row of the search dataframe.  `banned_terms` is read through
`str(...)`, which is the identity on the string cells used here. -/
structure Row where
  product : String
  min_price : Cell
  max_price : Cell
  banned_terms : String
deriving DecidableEq

/-- The per-criterion data extracted from a row. -/
structure Criterion where
  minP : ℚ
  maxP : ℚ
  banned : List String
deriving DecidableEq

/-- Google Shopping banned-term split:
`banned_terms.replace(';', ',').split(',')`. -/
def splitBannedGS (s : String) : List String :=
  ((splitOnChar ',' (s.data.map (fun c => if c = ';' then ',' else c))).map
    String.mk)

/-- Mercado Livre / Amazon banned-term split: `banned_terms.split(', ')`
followed by splitting each piece on `';'` and flattening. -/
def splitBannedML (s : String) : List String :=
  (((splitCommaSpace s.data).map (splitOnChar ';')).flatten).map String.mk

/-- Parse one row into a criterion:
`float(min_price)`, `float(max_price)`, split of `banned_terms`. -/
def criterionOfRow (split : String → List String) (r : Row) :
    Except PyError Criterion :=
  match pyFloatCell r.min_price with
  | .error e => .error e
  | .ok mn =>
    match pyFloatCell r.max_price with
    | .error e => .error e
    | .ok mx => .ok ⟨mn, mx, split r.banned_terms⟩

/-- The criterion used for one iteration of the product loop:
`df_search.loc[df_search['product'] == name, ...].values[0]` selects the
FIRST row whose `product` equals the iterated name (an empty selection
would raise `IndexError`, which cannot happen since the names are drawn
from the same column). -/
def criterionFor (split : String → List String) (rows : List Row)
    (name : String) : Except PyError Criterion :=
  match rows.find? (fun r => r.product == name) with
  | none => .error .indexError
  | some r => criterionOfRow split r

/-- One result card as the page presents it.  A `none` field models
`NoSuchElementException` raised when that sub-element is looked up. -/
structure Card where
  name : Option String
  priceText : Option String
  link : Option String

/-- The browser environment seen by one site routine: whether the initial
`browser.get(url)` raises, and, per criterion iteration, whether the
search input and (Google only) the shopping button are found, and the
result cards enumerated by `find_elements`. -/
structure SiteEnv where
  loadFails : Bool
  searchBarFound : ℕ → Bool
  shoppingBtnFound : ℕ → Bool
  cards : ℕ → List Card

/-- What a call to a site search routine does: return `None`, return the
dictionary, or let an exception escape to the caller. -/
inductive SearchOutcome
  | retNone
  | ret (d : Dict)
  | raised (e : PyError)
deriving DecidableEq

/-- The argument in `url` position. -/
inductive UrlArg
  | str (s : String)
  | notStr

/-- The argument in `df_search` position. -/
inductive DfArg
  | df (rows : List Row)
  | notDf

/-- The Google Shopping per-card body (src/main.py:291): extract name and
price text, parse the price, and keep the card only when no banned term
occurs in the name and the price is within bounds; the link is fetched
just before insertion.  The pair is (dictionary as mutated, escaping
exception if any). -/
def gsCardBody (cr : Criterion) (c : Card) (d : Dict) :
    Dict × Option PyError :=
  match c.name with
  | none => (d, some .noSuchElement)
  | some nm =>
    match c.priceText with
    | none => (d, some .noSuchElement)
    | some pt =>
      match format_prices pt with
      | .error e => (d, some e)
      | .ok p =>
        if cr.banned.all (fun term => !(containsSub term nm))
            && decide (cr.minP ≤ p) && decide (p ≤ cr.maxP) then
          match c.link with
          | none => (d, some .noSuchElement)
          | some lk => (insertLWW d nm ⟨nm, p, lk⟩, none)
        else (d, none)

/-- The Mercado Livre per-card body (src/main.py:390): its banned-term
loop does `continue` on a matching term, so each NON-matching term falls
through to the price check and can insert the card; the card is therefore
kept whenever SOME banned term does not occur in the name. -/
def mlTermLoop (cr : Criterion) (nm : String) (p : ℚ) (link : Option String) :
    List String → Dict → Dict × Option PyError
  | [], d => (d, none)
  | term :: rest, d =>
    if containsSub term nm then mlTermLoop cr nm p link rest d
    else if decide (cr.minP ≤ p) && decide (p ≤ cr.maxP) then
      match link with
      | none => (d, some .noSuchElement)
      | some lk => mlTermLoop cr nm p link rest (insertLWW d nm ⟨nm, p, lk⟩)
    else mlTermLoop cr nm p link rest d

/-- Mercado Livre per-card body: extract name and price, then run the
per-term loop. -/
def mlCardBody (cr : Criterion) (c : Card) (d : Dict) :
    Dict × Option PyError :=
  match c.name with
  | none => (d, some .noSuchElement)
  | some nm =>
    match c.priceText with
    | none => (d, some .noSuchElement)
    | some pt =>
      match format_prices pt with
      | .error e => (d, some e)
      | .ok p => mlTermLoop cr nm p c.link cr.banned d

/-- The Amazon banned-term loop (src/main.py:503): `for term ...: if term
in name: break` with an `else` clause — true exactly when NO term matched
(the loop ran to completion). -/
def amzNoTermMatched (banned : List String) (nm : String) : Bool :=
  match banned with
  | [] => true
  | term :: rest =>
    if containsSub term nm then false else amzNoTermMatched rest nm

/-- Amazon per-card body: name, price, `for/else` over banned terms, then
the price gate and insertion. -/
def amzCardBody (cr : Criterion) (c : Card) (d : Dict) :
    Dict × Option PyError :=
  match c.name with
  | none => (d, some .noSuchElement)
  | some nm =>
    match c.priceText with
    | none => (d, some .noSuchElement)
    | some pt =>
      match format_prices pt with
      | .error e => (d, some e)
      | .ok p =>
        if amzNoTermMatched cr.banned nm then
          if decide (cr.minP ≤ p) && decide (p ≤ cr.maxP) then
            match c.link with
            | none => (d, some .noSuchElement)
            | some lk => (insertLWW d nm ⟨nm, p, lk⟩, none)
          else (d, none)
        else (d, none)

/-- The per-card `except (NoSuchElementException, ValueError): continue`:
those two classes are swallowed, anything else keeps escaping. -/
def cardCatch (body : Dict × Option PyError) : Dict × Option PyError :=
  match body with
  | (d, some e) =>
    if e = .noSuchElement ∨ e = .valueError then (d, none) else (d, some e)
  | (d, none) => (d, none)

/-- `for element in list_result`: run the per-card step until an exception
escapes it. -/
def cardsLoop (step : Card → Dict → Dict × Option PyError) :
    List Card → Dict → Dict × Option PyError
  | [], d => (d, none)
  | c :: rest, d =>
    match step c d with
    | (d1, none) => cardsLoop step rest d1
    | (d1, some e) => (d1, some e)

/-- The Google Shopping criterion loop (src/main.py:248): parse the
criterion (a `ValueError` is logged and the row skipped), find the search
bar and the shopping button (`NoSuchElementException` is logged and the
row skipped), then process the cards.  The card loop has NO surrounding
catch-all, so an exception escaping a card step escapes the routine. -/
def gsCriteria (env : SiteEnv) (rows : List Row) :
    List String → ℕ → Dict → Dict × Option PyError
  | [], _, d => (d, none)
  | name :: rest, i, d =>
    match criterionFor splitBannedGS rows name with
    | .error .valueError => gsCriteria env rows rest (i + 1) d
    | .error e => (d, some e)
    | .ok cr =>
      if !env.searchBarFound i then gsCriteria env rows rest (i + 1) d
      else if !env.shoppingBtnFound i then gsCriteria env rows rest (i + 1) d
      else
        match cardsLoop (fun c dd => cardCatch (gsCardBody cr c dd))
            (env.cards i) d with
        | (d1, none) => gsCriteria env rows rest (i + 1) d1
        | (d1, some e) => (d1, some e)

/-- The Mercado Livre criterion loop (src/main.py:354): as Google but
without the shopping button, and the whole card loop sits inside
`try ... except Exception`, so an exception escaping a card step is
swallowed (the remaining cards of that criterion are lost) and the
criterion loop continues. -/
def mlCriteria (env : SiteEnv) (rows : List Row) :
    List String → ℕ → Dict → Dict × Option PyError
  | [], _, d => (d, none)
  | name :: rest, i, d =>
    match criterionFor splitBannedML rows name with
    | .error .valueError => mlCriteria env rows rest (i + 1) d
    | .error e => (d, some e)
    | .ok cr =>
      if !env.searchBarFound i then mlCriteria env rows rest (i + 1) d
      else
        match cardsLoop (fun c dd => cardCatch (mlCardBody cr c dd))
            (env.cards i) d with
        | (d1, _) => mlCriteria env rows rest (i + 1) d1

/-- The Amazon criterion loop (src/main.py:459): same shape as Mercado
Livre, with the Amazon card body. -/
def amzCriteria (env : SiteEnv) (rows : List Row) :
    List String → ℕ → Dict → Dict × Option PyError
  | [], _, d => (d, none)
  | name :: rest, i, d =>
    match criterionFor splitBannedML rows name with
    | .error .valueError => amzCriteria env rows rest (i + 1) d
    | .error e => (d, some e)
    | .ok cr =>
      if !env.searchBarFound i then amzCriteria env rows rest (i + 1) d
      else
        match cardsLoop (fun c dd => cardCatch (amzCardBody cr c dd))
            (env.cards i) d with
        | (d1, _) => amzCriteria env rows rest (i + 1) d1

/-- `search_on_google_shopping` (src/main.py:214): validate the arguments
(returning `None` on a non-string url or a non-dataframe/empty
dataframe), attempt the initial page load (returning the empty dictionary
on failure), then run the criterion loop over `df_search['product']`. -/
def search_on_google_shopping (url : UrlArg) (dfa : DfArg) (env : SiteEnv) :
    SearchOutcome :=
  match url with
  | .notStr => .retNone
  | .str _ =>
    match dfa with
    | .notDf => .retNone
    | .df rows =>
      if rows.isEmpty then .retNone
      else if env.loadFails then .ret []
      else
        match gsCriteria env rows (rows.map (fun r => r.product)) 0 [] with
        | (d, none) => .ret d
        | (_, some e) => .raised e

/-- `search_on_mercado_livre` (src/main.py:320): same validation and
shape, with the Mercado Livre criterion loop. -/
def search_on_mercado_livre (url : UrlArg) (dfa : DfArg) (env : SiteEnv) :
    SearchOutcome :=
  match url with
  | .notStr => .retNone
  | .str _ =>
    match dfa with
    | .notDf => .retNone
    | .df rows =>
      if rows.isEmpty then .retNone
      else if env.loadFails then .ret []
      else
        match mlCriteria env rows (rows.map (fun r => r.product)) 0 [] with
        | (d, none) => .ret d
        | (_, some e) => .raised e

/-- `search_on_amazon` (src/main.py:425): same validation and shape, with
the Amazon criterion loop. -/
def search_on_amazon (url : UrlArg) (dfa : DfArg) (env : SiteEnv) :
    SearchOutcome :=
  match url with
  | .notStr => .retNone
  | .str _ =>
    match dfa with
    | .notDf => .retNone
    | .df rows =>
      if rows.isEmpty then .retNone
      else if env.loadFails then .ret []
      else
        match amzCriteria env rows (rows.map (fun r => r.product)) 0 [] with
        | (d, none) => .ret d
        | (_, some e) => .raised e

/-- An observable action of `scroll_down`: a
`window.scrollTo(0, offset)` call or a `time.sleep` pause. -/
inductive SEvent
  | scrollTo (offset : ℕ)
  | pause (t : ℚ)
deriving DecidableEq

/-- The loop of `scroll_down` (src/main.py:161): while `scroll < 12500`,
scroll to the current offset, advance by 500, pause, then stop if the
surface reports that the viewport bottom reached the content bottom.
`bottom k` is the surface's report after the k-th scroll command. -/
def scrollDownAux (bottom : ℕ → Bool) (time_pause : ℚ) (scroll k : ℕ) :
    List SEvent :=
  if h : scroll < 12500 then
    SEvent.scrollTo scroll :: SEvent.pause time_pause ::
      (if bottom (k + 1) then []
       else scrollDownAux bottom time_pause (scroll + 500) (k + 1))
  else []
termination_by 12500 - scroll
decreasing_by omega

/-- `scroll_down`: the loop followed by the unconditional final
`time.sleep(1)`. -/
def scroll_down (bottom : ℕ → Bool) (time_pause : ℚ) : List SEvent :=
  scrollDownAux bottom time_pause 0 0 ++ [SEvent.pause 1]

/-- The scroll offsets a trace issued, in order. -/
def offsetsOf (l : List SEvent) : List ℕ :=
  l.filterMap (fun e => match e with | .scrollTo o => some o | _ => none)

/-- A Python value in a position where `wait` demands a string. -/
inductive PyVal
  | str (s : String)
  | notStr

/-- The attribute names of selenium's `By` class. -/
def byNames : List (List Char) :=
  ["ID".data, "XPATH".data, "LINK_TEXT".data, "PARTIAL_LINK_TEXT".data,
   "NAME".data, "TAG_NAME".data, "CLASS_NAME".data, "CSS_SELECTOR".data]

/-- `getattr(By, element_type.upper())`: raises `AttributeError` when the
upper-cased strategy name is not an attribute of `By`. -/
def getattrBy (s : String) : Except PyError Unit :=
  if byNames.contains (s.data.map Char.toUpper) then .ok ()
  else .error .attributeError

/-- What the browser does inside `WebDriverWait(...).until(...)`: the
element appears in time, or some exception (timeout included) is
raised. -/
structure WaitEnv where
  untilOutcome : Option PyError

/-- How a call to `wait` ends, as logged. -/
inductive WaitOutcome
  | invalidArgs
  | found
  | suppressed (e : PyError)

/-- The body of the `try` in `wait`: resolve the locator strategy, then
block until the element is present or the wait raises. -/
def waitBody (element_type : String) (env : WaitEnv) : Except PyError Unit :=
  match getattrBy element_type with
  | .error e => .error e
  | .ok _ =>
    match env.untilOutcome with
    | some e => .error e
    | none => .ok ()

/-- `wait` (src/main.py:187): non-string arguments are logged and the
function returns; the `try` body is guarded by `except Exception`, which
logs and returns.  The result is `Except.ok` of what happened — an
`Except.error` would mean an exception reached the caller.  The
`wait_time` argument (default 10) only parametrises the timeout whose
expiry is `env.untilOutcome = some timeoutError`. -/
def wait (element_type element_name : PyVal) (env : WaitEnv)
    (wait_time : ℚ := 10) : Except PyError WaitOutcome :=
  match element_type, element_name with
  | .str et, .str _ =>
    (match waitBody et env with
     | .ok _ => .ok .found
     | .error e => .ok (.suppressed e))
  | _, _ => .ok .invalidArgs

/-- The argument handed to `creating_Dataframe_with_results`: a dict, or
anything that is not a dict (in particular the `None` a failed site
routine returns). -/
inductive AggArg
  | notDict
  | dict (d : Dict)

/-- `creating_Dataframe_with_results` (src/main.py:530): `None` for a
non-dict or empty input, otherwise the rows of
`pd.DataFrame.from_dict(dict_, orient='index')` after
`reset_index(drop=True)` — the dict's values in key iteration order. -/
def creating_Dataframe_with_results : AggArg → Option (List ProductInfo)
  | .notDict => none
  | .dict d => if d.length < 1 then none else some (d.map Prod.snd)

/-- The environment a run on a dataframe without its second row sees:
iteration 0 keeps index 0 and every later iteration i reads what the
three-row run read at iteration i + 1 (so iteration 1 reads index 2). -/
def reindexSkip1 (env : SiteEnv) : SiteEnv where
  loadFails := env.loadFails
  searchBarFound := fun i => env.searchBarFound (if i = 0 then 0 else i + 1)
  shoppingBtnFound := fun i => env.shoppingBtnFound (if i = 0 then 0 else i + 1)
  cards := fun i => env.cards (if i = 0 then 0 else i + 1)

/-- Offsets produced by the scroll loop from `scroll = 500 * k` onwards:
an arithmetic progression of step 500 whose length keeps the total number
of scroll commands at 25 or fewer. -/
theorem scrollAux_offsets (bottom : ℕ → Bool) (tp : ℚ) (k : ℕ) :
    ∃ n, n ≤ 25 - k ∧
      offsetsOf (scrollDownAux bottom tp (500 * k) k) =
        List.range' (500 * k) n 500 := by
  by_cases hk : 500 * k < 12500
  · by_cases hb : bottom (k + 1) = true
    · refine ⟨1, by omega, ?_⟩
      rw [scrollDownAux]
      simp [offsetsOf, hk, hb, List.range']
    · have hb2 : bottom (k + 1) = false := by
        revert hb; cases bottom (k + 1) <;> simp
      obtain ⟨n, hn, he⟩ := scrollAux_offsets bottom tp (k + 1)
      refine ⟨n + 1, by omega, ?_⟩
      rw [scrollDownAux]
      have h500 : 500 * k + 500 = 500 * (k + 1) := by ring
      simp only [dif_pos hk, hb2, Bool.false_eq_true, if_false, offsetsOf,
        List.filterMap_cons]
      rw [show (500 * k + 500) = 500 * (k + 1) from by ring]
      rw [offsetsOf] at he
      rw [he, List.range', h500]
  · refine ⟨0, by omega, ?_⟩
    rw [scrollDownAux]
    simp [offsetsOf, hk, List.range']
termination_by 25 - k
decreasing_by omega

/-- C6: for every page surface, `scroll_down` issues its scroll commands
as offsets 0, 500, 1000, ... (at most 25 commands, so no offset exceeds
12500); it stops at the first command after which the surface reports
that the viewport bottom reached the content bottom (a report after the
2nd command yields exactly the offsets 0 and 500); and the last action is
always a pause of 1 time unit. -/
theorem c6_scroll_down_spec (bottom : ℕ → Bool) (tp : ℚ) :
    (∃ n, n ≤ 25 ∧ offsetsOf (scroll_down bottom tp) = List.range' 0 n 500) ∧
    (∀ o ∈ offsetsOf (scroll_down bottom tp), o ≤ 12500) ∧
    (bottom 1 = false → bottom 2 = true →
      offsetsOf (scroll_down bottom tp) = [0, 500]) ∧
    (scroll_down bottom tp).getLast? = some (SEvent.pause 1) := by
  have hoff : offsetsOf (scroll_down bottom tp) =
      offsetsOf (scrollDownAux bottom tp 0 0) := by
    simp [scroll_down, offsetsOf, List.filterMap_append]
  obtain ⟨n, hn, he⟩ := scrollAux_offsets bottom tp 0
  rw [Nat.mul_zero] at he
  refine ⟨⟨n, by omega, by rw [hoff, he]⟩, ?_, ?_, ?_⟩
  · intro o ho
    rw [hoff, he, List.mem_range'] at ho
    obtain ⟨i, hi, rfl⟩ := ho
    omega
  · intro h1 h2
    rw [hoff, scrollDownAux]
    norm_num [h1]
    rw [scrollDownAux]
    norm_num [h2, offsetsOf]
    rfl
  · rw [scroll_down, List.getLast?_concat]

/-- C6 witness: a surface that reports bottom after the 2nd command makes
the driver issue exactly the offsets 0 and 500. -/
theorem c6_scroll_down_spec_witness :
    offsetsOf (scroll_down (fun k => decide (2 ≤ k)) 1) = [0, 500] :=
  (c6_scroll_down_spec (fun k => decide (2 ≤ k)) 1).2.2.1 (by decide) (by decide)

/-- C4: the currency parser maps `"R$ 1.234,56"` to 1234.56 and maps
`"R$ 1.234,56 cada"` to the same value — only the first
whitespace-delimited token after normalisation is parsed and the trailing
text is ignored. -/
theorem c4_format_prices_values :
    format_prices "R$ 1.234,56" = .ok (1234.56 : ℚ) ∧
    format_prices "R$ 1.234,56 cada" = .ok (1234.56 : ℚ) := by
  have h : (mkRat 123456 100 : ℚ) = (1234.56 : ℚ) := by
    rw [Rat.mkRat_eq_div]; norm_num
  constructor
  · rw [← h]; decide
  · rw [← h]; decide

/-- C5: when no whitespace token of the normalised input parses as a
`float` — empty input, whitespace only, a non-numeric word — the parser
raises (`IndexError` when there is no token at all, `ValueError` when the
first token is non-numeric) instead of returning a value. -/
theorem c5_format_prices_fails_without_numeric_token (s : String)
    (h : hasNumericToken s = false) : ∃ e, format_prices s = .error e := by
  unfold hasNumericToken at h
  unfold format_prices
  cases hp : priceTokens s.data with
  | nil => exact ⟨.indexError, rfl⟩
  | cons t rest =>
    rw [hp] at h
    simp only [List.any_cons, Bool.or_eq_false_iff] at h
    obtain ⟨h1, _⟩ := h
    cases hf : pyFloatL t with
    | ok q => rw [hf] at h1; simp [Except.isOk, Except.toBool] at h1
    | error e => exact ⟨e, hf⟩

/-- C5 witness: `"abc"` has no numeric token and the parser fails on
it. -/
theorem c5_format_prices_fails_without_numeric_token_witness :
    hasNumericToken "abc" = false ∧ ∃ e, format_prices "abc" = .error e :=
  ⟨by decide, c5_format_prices_fails_without_numeric_token "abc" (by decide)⟩

/-- C7: whatever the locator strategy name, locator value and browser
behaviour (timeout included), `wait` returns normally — every failure is
either the input-validation early return or swallowed by the
`except Exception` handler. -/
theorem c7_wait_never_raises (element_type element_name : PyVal)
    (env : WaitEnv) (wait_time : ℚ) :
    ∃ o, wait element_type element_name env wait_time = .ok o := by
  cases element_type with
  | notStr => exact ⟨.invalidArgs, rfl⟩
  | str et =>
    cases element_name with
    | notStr => exact ⟨.invalidArgs, rfl⟩
    | str en =>
      cases hw : waitBody et env with
      | ok u => exact ⟨.found, by simp [wait, hw]⟩
      | error e => exact ⟨.suppressed e, by simp [wait, hw]⟩

/-- C9: on every non-empty mapping the aggregator deterministically
produces the table whose rows are the mapping's values in insertion
order, one row per product; being a pure function of the mapping, a
second application to the same mapping yields the identical table. -/
theorem c9_aggregator_deterministic (d : Dict) (h : d ≠ []) :
    creating_Dataframe_with_results (.dict d) = some (d.map Prod.snd) ∧
    (d.map Prod.snd).length = d.length := by
  refine ⟨?_, by simp⟩
  unfold creating_Dataframe_with_results
  have hd : ¬ d.length < 1 := by
    cases d with
    | nil => exact absurd rfl h
    | cons a l => simp
  simp [hd]

/-- C9 witness: the aggregator on a one-entry mapping. -/
theorem c9_aggregator_deterministic_witness :
    creating_Dataframe_with_results
        (.dict [("a", ⟨"a", 1, "l"⟩)]) =
      some ([(("a" : String), (⟨"a", 1, "l"⟩ : ProductInfo))].map Prod.snd) ∧
    ([(("a" : String), (⟨"a", 1, "l"⟩ : ProductInfo))].map Prod.snd).length =
      [(("a" : String), (⟨"a", 1, "l"⟩ : ProductInfo))].length :=
  c9_aggregator_deterministic [("a", ⟨"a", 1, "l"⟩)] (by simp)

/-- C10: a non-string url, a non-dataframe, or an empty dataframe makes
every site search routine return `None` instead of a mapping, and the
aggregator handed a non-dict (such as that `None`) returns `None`. -/
theorem c10_validation_returns_none :
    (∀ dfa env, search_on_google_shopping .notStr dfa env = .retNone) ∧
    (∀ s env, search_on_google_shopping (.str s) .notDf env = .retNone) ∧
    (∀ s env, search_on_google_shopping (.str s) (.df []) env = .retNone) ∧
    (∀ dfa env, search_on_mercado_livre .notStr dfa env = .retNone) ∧
    (∀ s env, search_on_mercado_livre (.str s) .notDf env = .retNone) ∧
    (∀ s env, search_on_mercado_livre (.str s) (.df []) env = .retNone) ∧
    (∀ dfa env, search_on_amazon .notStr dfa env = .retNone) ∧
    (∀ s env, search_on_amazon (.str s) .notDf env = .retNone) ∧
    (∀ s env, search_on_amazon (.str s) (.df []) env = .retNone) ∧
    creating_Dataframe_with_results .notDict = none :=
  ⟨fun _ _ => rfl, fun _ _ => rfl, fun _ _ => rfl,
   fun _ _ => rfl, fun _ _ => rfl, fun _ _ => rfl,
   fun _ _ => rfl, fun _ _ => rfl, fun _ _ => rfl, rfl⟩

/-- C1 (acceptance rule): a Mercado Livre result card whose name contains
the banned term `"usado"` but not the banned term `"zzz"`, priced inside
the bounds, IS recorded — the per-term `continue` lets the non-matching
later term fall through to acceptance.  The same card, criterion and
bounds are rejected by the Google Shopping and Amazon routines, whose
checks gate on "no banned term matches". -/
theorem c1_mercado_livre_records_partially_banned_card :
    containsSub "usado" "produto usado" = true ∧
    search_on_mercado_livre (.str "u")
      (.df [⟨"item", .num 100, .num 500, "usado, zzz"⟩])
      ⟨false, fun _ => true, fun _ => true,
        fun _ => [⟨some "produto usado", some "R$ 300,00", some "http://x"⟩]⟩ =
      .ret [("produto usado", ⟨"produto usado", 300, "http://x"⟩)] ∧
    search_on_google_shopping (.str "u")
      (.df [⟨"item", .num 100, .num 500, "usado, zzz"⟩])
      ⟨false, fun _ => true, fun _ => true,
        fun _ => [⟨some "produto usado", some "R$ 300,00", some "http://x"⟩]⟩ =
      .ret [] ∧
    search_on_amazon (.str "u")
      (.df [⟨"item", .num 100, .num 500, "usado, zzz"⟩])
      ⟨false, fun _ => true, fun _ => true,
        fun _ => [⟨some "produto usado", some "R$ 300,00", some "http://x"⟩]⟩ =
      .ret [] := by
  refine ⟨by decide, by decide, by decide, by decide⟩

/-- C2 (exception propagation): `format_prices` raises `IndexError` — not
`ValueError` — on a price text with no numeric token, and the Google
Shopping per-card handler only catches `NoSuchElementException` and
`ValueError`, so the exception escapes `search_on_google_shopping` to its
caller.  The same card under Mercado Livre is absorbed by its
`except Exception` around the card loop, which returns the accumulated
mapping. -/
theorem c2_google_shopping_raises_on_tokenless_price :
    format_prices "R$ " = .error .indexError ∧
    search_on_google_shopping (.str "u")
      (.df [⟨"a", .num 10, .num 100, "zzz"⟩])
      ⟨false, fun _ => true, fun _ => true,
        fun _ => [⟨some "prod", some "R$ ", some "l"⟩]⟩ =
      .raised .indexError ∧
    search_on_mercado_livre (.str "u")
      (.df [⟨"a", .num 10, .num 100, "zzz"⟩])
      ⟨false, fun _ => true, fun _ => true,
        fun _ => [⟨some "prod", some "R$ ", some "l"⟩]⟩ =
      .ret [] := by
  refine ⟨by decide, by decide, by decide⟩

/-- C3 counterexample: two rows share the product name `"x"`; the first
has bounds [100, 200], the second [300, 400].  Under the second row's own
criterion the 350-priced card is recorded (first conjunct), yet the
routine run on the duplicate dataframe records nothing (second conjunct):
both iterations over the name `"x"` resolve the criterion to the FIRST
matching row's bounds [100, 200], so the claim that each row is searched
with its own bounds fails here. -/
theorem c3_duplicate_rows_counterexample :
    gsCardBody ⟨300, 400, ["q"]⟩ ⟨some "p", some "R$ 350,00", some "l"⟩ [] =
      ([("p", ⟨"p", 350, "l"⟩)], none) ∧
    search_on_google_shopping (.str "u")
      (.df [⟨"x", .num 100, .num 200, "q"⟩, ⟨"x", .num 300, .num 400, "q"⟩])
      ⟨false, fun _ => true, fun _ => true,
        fun _ => [⟨some "p", some "R$ 350,00", some "l"⟩]⟩ =
      .ret [] := by
  refine ⟨by decide, by decide⟩

/-- C3 amended: each routine iterates once per dataframe row, but resolves
every iteration's criterion by product name through
`df.loc[df['product'] == name].values[0]` — the first row with that
name — so duplicated names all search with the first matching row's
bounds and banned terms. -/
theorem c3_criterion_lookup_first_match (split : String → List String)
    (rows : List Row) (name : String) (r : Row)
    (h : rows.find? (fun x => x.product == name) = some r) :
    criterionFor split rows name = criterionOfRow split r := by
  unfold criterionFor
  rw [h]

/-- C3 amended witness: on the duplicate dataframe the criterion for
`"x"` is the first row's. -/
theorem c3_criterion_lookup_first_match_witness :
    criterionFor splitBannedGS
      [⟨"x", .num 100, .num 200, "q"⟩, ⟨"x", .num 300, .num 400, "q"⟩] "x" =
    criterionOfRow splitBannedGS ⟨"x", .num 100, .num 200, "q"⟩ :=
  c3_criterion_lookup_first_match splitBannedGS
    [⟨"x", .num 100, .num 200, "q"⟩, ⟨"x", .num 300, .num 400, "q"⟩] "x"
    ⟨"x", .num 100, .num 200, "q"⟩ (by decide)

/-- The criterion lookup on a dataframe whose first row carries the
searched name resolves to that first row. -/
theorem criterionFor_head (split : String → List String) (r : Row)
    (rs : List Row) :
    criterionFor split (r :: rs) r.product = criterionOfRow split r := by
  unfold criterionFor
  rw [List.find?_cons_of_pos _ (by simp)]

/-- The criterion lookup skips a leading row whose product is not the
searched name. -/
theorem criterionFor_tail (split : String → List String) (r : Row)
    (rs : List Row) (name : String) (h : r.product ≠ name) :
    criterionFor split (r :: rs) name = criterionFor split rs name := by
  unfold criterionFor
  rw [List.find?_cons_of_neg _ (by simp [h])]

/-- A row whose `min_price` does not convert yields `ValueError` whatever
the banned-term split convention. -/
theorem criterionOfRow_badmin (split : String → List String) (r : Row)
    (h : pyFloatCell r.min_price = .error .valueError) :
    criterionOfRow split r = .error .valueError := by
  unfold criterionOfRow
  rw [h]

/-- A row whose two price cells convert yields its own criterion. -/
theorem criterionOfRow_ok (split : String → List String) (r : Row)
    (mn mx : ℚ) (hmn : pyFloatCell r.min_price = .ok mn)
    (hmx : pyFloatCell r.max_price = .ok mx) :
    criterionOfRow split r = .ok ⟨mn, mx, split r.banned_terms⟩ := by
  unfold criterionOfRow
  rw [hmn, hmx]

/-- One-step unfolding of the Google Shopping criterion loop. -/
theorem gsCriteria_cons (env : SiteEnv) (rows : List Row) (name : String)
    (rest : List String) (i : ℕ) (d : Dict) :
    gsCriteria env rows (name :: rest) i d =
      match criterionFor splitBannedGS rows name with
      | .error .valueError => gsCriteria env rows rest (i + 1) d
      | .error e => (d, some e)
      | .ok cr =>
        if !env.searchBarFound i then gsCriteria env rows rest (i + 1) d
        else if !env.shoppingBtnFound i then gsCriteria env rows rest (i + 1) d
        else
          match cardsLoop (fun c dd => cardCatch (gsCardBody cr c dd))
              (env.cards i) d with
          | (d1, none) => gsCriteria env rows rest (i + 1) d1
          | (d1, some e) => (d1, some e) := rfl

/-- One-step unfolding of the Mercado Livre criterion loop. -/
theorem mlCriteria_cons (env : SiteEnv) (rows : List Row) (name : String)
    (rest : List String) (i : ℕ) (d : Dict) :
    mlCriteria env rows (name :: rest) i d =
      match criterionFor splitBannedML rows name with
      | .error .valueError => mlCriteria env rows rest (i + 1) d
      | .error e => (d, some e)
      | .ok cr =>
        if !env.searchBarFound i then mlCriteria env rows rest (i + 1) d
        else
          match cardsLoop (fun c dd => cardCatch (mlCardBody cr c dd))
              (env.cards i) d with
          | (d1, _) => mlCriteria env rows rest (i + 1) d1 := rfl

/-- One-step unfolding of the Amazon criterion loop. -/
theorem amzCriteria_cons (env : SiteEnv) (rows : List Row) (name : String)
    (rest : List String) (i : ℕ) (d : Dict) :
    amzCriteria env rows (name :: rest) i d =
      match criterionFor splitBannedML rows name with
      | .error .valueError => amzCriteria env rows rest (i + 1) d
      | .error e => (d, some e)
      | .ok cr =>
        if !env.searchBarFound i then amzCriteria env rows rest (i + 1) d
        else
          match cardsLoop (fun c dd => cardCatch (amzCardBody cr c dd))
              (env.cards i) d with
          | (d1, _) => amzCriteria env rows rest (i + 1) d1 := rfl

/-- The Google Shopping criterion loop on three rows whose middle row has
an unconvertible `min_price` (and pairwise-distinct product names) is the
loop on the first and third rows alone, reading the environment through
the skip-one reindexing. -/
theorem gsCriteria_skip_row2 (env : SiteEnv) (r1 r2 r3 : Row)
    (hne12 : r1.product ≠ r2.product) (hne13 : r1.product ≠ r3.product)
    (hne23 : r2.product ≠ r3.product)
    (h2 : pyFloatCell r2.min_price = .error .valueError) (d : Dict) :
    gsCriteria env [r1, r2, r3] [r1.product, r2.product, r3.product] 0 d =
      gsCriteria (reindexSkip1 env) [r1, r3] [r1.product, r3.product] 0 d := by
  have e1 : (reindexSkip1 env).searchBarFound 0 = env.searchBarFound 0 := rfl
  have e2 : (reindexSkip1 env).shoppingBtnFound 0 = env.shoppingBtnFound 0 := rfl
  have e3 : (reindexSkip1 env).cards 0 = env.cards 0 := rfl
  have f1 : (reindexSkip1 env).searchBarFound 1 = env.searchBarFound 2 := rfl
  have f2 : (reindexSkip1 env).shoppingBtnFound 1 = env.shoppingBtnFound 2 := rfl
  have f3 : (reindexSkip1 env).cards 1 = env.cards 2 := rfl
  have hc1 : criterionFor splitBannedGS [r1, r2, r3] r1.product =
      criterionOfRow splitBannedGS r1 := criterionFor_head _ _ _
  have hc1x : criterionFor splitBannedGS [r1, r3] r1.product =
      criterionOfRow splitBannedGS r1 := criterionFor_head _ _ _
  have hc2 : criterionFor splitBannedGS [r1, r2, r3] r2.product =
      .error .valueError := by
    rw [criterionFor_tail _ _ _ _ hne12, criterionFor_head,
      criterionOfRow_badmin _ _ h2]
  have hc3 : criterionFor splitBannedGS [r1, r2, r3] r3.product =
      criterionOfRow splitBannedGS r3 := by
    rw [criterionFor_tail _ _ _ _ hne13, criterionFor_tail _ _ _ _ hne23,
      criterionFor_head]
  have hc3x : criterionFor splitBannedGS [r1, r3] r3.product =
      criterionOfRow splitBannedGS r3 := by
    rw [criterionFor_tail _ _ _ _ hne13, criterionFor_head]
  have hS2 : ∀ dd : Dict,
      gsCriteria env [r1, r2, r3] [r3.product] 2 dd =
        gsCriteria (reindexSkip1 env) [r1, r3] [r3.product] 1 dd := by
    intro dd
    conv_lhs => rw [gsCriteria_cons, hc3]
    conv_rhs => rw [gsCriteria_cons, hc3x]
    rw [f1, f2, f3]
    cases hcr : criterionOfRow splitBannedGS r3 with
    | error e => cases e <;> rfl
    | ok cr => rfl
  have hS1 : ∀ dd : Dict,
      gsCriteria env [r1, r2, r3] [r2.product, r3.product] 1 dd =
        gsCriteria (reindexSkip1 env) [r1, r3] [r3.product] 1 dd := by
    intro dd
    conv_lhs => rw [gsCriteria_cons, hc2]
    exact hS2 dd
  conv_lhs => rw [gsCriteria_cons, hc1]
  conv_rhs => rw [gsCriteria_cons, hc1x]
  rw [e1, e2, e3]
  cases hcr : criterionOfRow splitBannedGS r1 with
  | error e =>
    cases e with
    | valueError => exact hS1 d
    | indexError => rfl
    | noSuchElement => rfl
    | attributeError => rfl
    | timeoutError => rfl
  | ok cr =>
    simp only []
    cases hsb : env.searchBarFound 0 with
    | false => exact hS1 d
    | true =>
      cases hbt : env.shoppingBtnFound 0 with
      | false => exact hS1 d
      | true =>
        rcases hcl : cardsLoop (fun c dd2 => cardCatch (gsCardBody cr c dd2))
          (env.cards 0) d with ⟨d1, oe⟩
        cases oe with
        | none => exact hS1 d1
        | some e => rfl

/-- The Mercado Livre criterion loop on three rows whose middle row has an
unconvertible `min_price` (and pairwise-distinct product names) is the
loop on the first and third rows alone, reading the environment through
the skip-one reindexing. -/
theorem mlCriteria_skip_row2 (env : SiteEnv) (r1 r2 r3 : Row)
    (hne12 : r1.product ≠ r2.product) (hne13 : r1.product ≠ r3.product)
    (hne23 : r2.product ≠ r3.product)
    (h2 : pyFloatCell r2.min_price = .error .valueError) (d : Dict) :
    mlCriteria env [r1, r2, r3] [r1.product, r2.product, r3.product] 0 d =
      mlCriteria (reindexSkip1 env) [r1, r3] [r1.product, r3.product] 0 d := by
  have e1 : (reindexSkip1 env).searchBarFound 0 = env.searchBarFound 0 := rfl
  have e3 : (reindexSkip1 env).cards 0 = env.cards 0 := rfl
  have f1 : (reindexSkip1 env).searchBarFound 1 = env.searchBarFound 2 := rfl
  have f3 : (reindexSkip1 env).cards 1 = env.cards 2 := rfl
  have hc1 : criterionFor splitBannedML [r1, r2, r3] r1.product =
      criterionOfRow splitBannedML r1 := criterionFor_head _ _ _
  have hc1x : criterionFor splitBannedML [r1, r3] r1.product =
      criterionOfRow splitBannedML r1 := criterionFor_head _ _ _
  have hc2 : criterionFor splitBannedML [r1, r2, r3] r2.product =
      .error .valueError := by
    rw [criterionFor_tail _ _ _ _ hne12, criterionFor_head,
      criterionOfRow_badmin _ _ h2]
  have hc3 : criterionFor splitBannedML [r1, r2, r3] r3.product =
      criterionOfRow splitBannedML r3 := by
    rw [criterionFor_tail _ _ _ _ hne13, criterionFor_tail _ _ _ _ hne23,
      criterionFor_head]
  have hc3x : criterionFor splitBannedML [r1, r3] r3.product =
      criterionOfRow splitBannedML r3 := by
    rw [criterionFor_tail _ _ _ _ hne13, criterionFor_head]
  have hS2 : ∀ dd : Dict,
      mlCriteria env [r1, r2, r3] [r3.product] 2 dd =
        mlCriteria (reindexSkip1 env) [r1, r3] [r3.product] 1 dd := by
    intro dd
    conv_lhs => rw [mlCriteria_cons, hc3]
    conv_rhs => rw [mlCriteria_cons, hc3x]
    rw [f1, f3]
    cases hcr : criterionOfRow splitBannedML r3 with
    | error e => cases e <;> rfl
    | ok cr => rfl
  have hS1 : ∀ dd : Dict,
      mlCriteria env [r1, r2, r3] [r2.product, r3.product] 1 dd =
        mlCriteria (reindexSkip1 env) [r1, r3] [r3.product] 1 dd := by
    intro dd
    conv_lhs => rw [mlCriteria_cons, hc2]
    exact hS2 dd
  conv_lhs => rw [mlCriteria_cons, hc1]
  conv_rhs => rw [mlCriteria_cons, hc1x]
  rw [e1, e3]
  cases hcr : criterionOfRow splitBannedML r1 with
  | error e =>
    cases e with
    | valueError => exact hS1 d
    | indexError => rfl
    | noSuchElement => rfl
    | attributeError => rfl
    | timeoutError => rfl
  | ok cr =>
    simp only []
    cases hsb : env.searchBarFound 0 with
    | false => exact hS1 d
    | true =>
      rcases hcl : cardsLoop (fun c dd2 => cardCatch (mlCardBody cr c dd2))
        (env.cards 0) d with ⟨d1, oe⟩
      exact hS1 d1

/-- The Amazon criterion loop on three rows whose middle row has an
unconvertible `min_price` (and pairwise-distinct product names) is the
loop on the first and third rows alone, reading the environment through
the skip-one reindexing. -/
theorem amzCriteria_skip_row2 (env : SiteEnv) (r1 r2 r3 : Row)
    (hne12 : r1.product ≠ r2.product) (hne13 : r1.product ≠ r3.product)
    (hne23 : r2.product ≠ r3.product)
    (h2 : pyFloatCell r2.min_price = .error .valueError) (d : Dict) :
    amzCriteria env [r1, r2, r3] [r1.product, r2.product, r3.product] 0 d =
      amzCriteria (reindexSkip1 env) [r1, r3] [r1.product, r3.product] 0 d := by
  have e1 : (reindexSkip1 env).searchBarFound 0 = env.searchBarFound 0 := rfl
  have e3 : (reindexSkip1 env).cards 0 = env.cards 0 := rfl
  have f1 : (reindexSkip1 env).searchBarFound 1 = env.searchBarFound 2 := rfl
  have f3 : (reindexSkip1 env).cards 1 = env.cards 2 := rfl
  have hc1 : criterionFor splitBannedML [r1, r2, r3] r1.product =
      criterionOfRow splitBannedML r1 := criterionFor_head _ _ _
  have hc1x : criterionFor splitBannedML [r1, r3] r1.product =
      criterionOfRow splitBannedML r1 := criterionFor_head _ _ _
  have hc2 : criterionFor splitBannedML [r1, r2, r3] r2.product =
      .error .valueError := by
    rw [criterionFor_tail _ _ _ _ hne12, criterionFor_head,
      criterionOfRow_badmin _ _ h2]
  have hc3 : criterionFor splitBannedML [r1, r2, r3] r3.product =
      criterionOfRow splitBannedML r3 := by
    rw [criterionFor_tail _ _ _ _ hne13, criterionFor_tail _ _ _ _ hne23,
      criterionFor_head]
  have hc3x : criterionFor splitBannedML [r1, r3] r3.product =
      criterionOfRow splitBannedML r3 := by
    rw [criterionFor_tail _ _ _ _ hne13, criterionFor_head]
  have hS2 : ∀ dd : Dict,
      amzCriteria env [r1, r2, r3] [r3.product] 2 dd =
        amzCriteria (reindexSkip1 env) [r1, r3] [r3.product] 1 dd := by
    intro dd
    conv_lhs => rw [amzCriteria_cons, hc3]
    conv_rhs => rw [amzCriteria_cons, hc3x]
    rw [f1, f3]
    cases hcr : criterionOfRow splitBannedML r3 with
    | error e => cases e <;> rfl
    | ok cr => rfl
  have hS1 : ∀ dd : Dict,
      amzCriteria env [r1, r2, r3] [r2.product, r3.product] 1 dd =
        amzCriteria (reindexSkip1 env) [r1, r3] [r3.product] 1 dd := by
    intro dd
    conv_lhs => rw [amzCriteria_cons, hc2]
    exact hS2 dd
  conv_lhs => rw [amzCriteria_cons, hc1]
  conv_rhs => rw [amzCriteria_cons, hc1x]
  rw [e1, e3]
  cases hcr : criterionOfRow splitBannedML r1 with
  | error e =>
    cases e with
    | valueError => exact hS1 d
    | indexError => rfl
    | noSuchElement => rfl
    | attributeError => rfl
    | timeoutError => rfl
  | ok cr =>
    simp only []
    cases hsb : env.searchBarFound 0 with
    | false => exact hS1 d
    | true =>
      rcases hcl : cardsLoop (fun c dd2 => cardCatch (amzCardBody cr c dd2))
        (env.cards 0) d with ⟨d1, oe⟩
      exact hS1 d1

/-- A Google Shopping call on a string url and a non-empty dataframe is
the initial-load check followed by the criterion loop. -/
theorem gs_run_cons (u : String) (env : SiteEnv) (r : Row) (rs : List Row) :
    search_on_google_shopping (.str u) (.df (r :: rs)) env =
      (if env.loadFails then .ret []
       else
         match gsCriteria env (r :: rs)
             ((r :: rs).map (fun x => x.product)) 0 [] with
         | (d, none) => .ret d
         | (_, some e) => .raised e) := rfl

/-- A Mercado Livre call on a string url and a non-empty dataframe is the
initial-load check followed by the criterion loop. -/
theorem ml_run_cons (u : String) (env : SiteEnv) (r : Row) (rs : List Row) :
    search_on_mercado_livre (.str u) (.df (r :: rs)) env =
      (if env.loadFails then .ret []
       else
         match mlCriteria env (r :: rs)
             ((r :: rs).map (fun x => x.product)) 0 [] with
         | (d, none) => .ret d
         | (_, some e) => .raised e) := rfl

/-- An Amazon call on a string url and a non-empty dataframe is the
initial-load check followed by the criterion loop. -/
theorem amz_run_cons (u : String) (env : SiteEnv) (r : Row) (rs : List Row) :
    search_on_amazon (.str u) (.df (r :: rs)) env =
      (if env.loadFails then .ret []
       else
         match amzCriteria env (r :: rs)
             ((r :: rs).map (fun x => x.product)) 0 [] with
         | (d, none) => .ret d
         | (_, some e) => .raised e) := rfl

/-- C8 (partial failure): for EVERY three-row criteria list whose middle
row has a `min_price` string that `float` rejects, whose first and third
rows parse, and whose product names are pairwise distinct, and for EVERY
browser environment: each iteration resolves its own row's criterion
(rows 1 and 3 to their own bounds and terms, row 2 to the logged-and-
skipped `ValueError`), and each of the three site routines returns
exactly what it returns on the dataframe without row 2 (the environment
reindexed so that the former iteration 2 is read at iteration 1) — one
bad criterion does not abort the batch, and rows 1 and 3 are searched
and accumulated as if the bad row were absent. -/
theorem c8_partial_failure_batch_continues
    (r1 r2 r3 : Row) (env : SiteEnv) (u s2 : String) (mn1 mx1 mn3 mx3 : ℚ)
    (hne12 : r1.product ≠ r2.product)
    (hne13 : r1.product ≠ r3.product)
    (hne23 : r2.product ≠ r3.product)
    (h2s : r2.min_price = .str s2)
    (h2f : pyFloat s2 = .error .valueError)
    (h1mn : pyFloatCell r1.min_price = .ok mn1)
    (h1mx : pyFloatCell r1.max_price = .ok mx1)
    (h3mn : pyFloatCell r3.min_price = .ok mn3)
    (h3mx : pyFloatCell r3.max_price = .ok mx3) :
    (∀ split : String → List String,
      criterionFor split [r1, r2, r3] r1.product =
        .ok ⟨mn1, mx1, split r1.banned_terms⟩) ∧
    (∀ split : String → List String,
      criterionFor split [r1, r2, r3] r2.product = .error .valueError) ∧
    (∀ split : String → List String,
      criterionFor split [r1, r2, r3] r3.product =
        .ok ⟨mn3, mx3, split r3.banned_terms⟩) ∧
    search_on_google_shopping (.str u) (.df [r1, r2, r3]) env =
      search_on_google_shopping (.str u) (.df [r1, r3]) (reindexSkip1 env) ∧
    search_on_mercado_livre (.str u) (.df [r1, r2, r3]) env =
      search_on_mercado_livre (.str u) (.df [r1, r3]) (reindexSkip1 env) ∧
    search_on_amazon (.str u) (.df [r1, r2, r3]) env =
      search_on_amazon (.str u) (.df [r1, r3]) (reindexSkip1 env) := by
  have h2 : pyFloatCell r2.min_price = .error .valueError := by
    rw [h2s]; exact h2f
  refine ⟨?_, ?_, ?_, ?_, ?_, ?_⟩
  · intro split
    rw [criterionFor_head]
    exact criterionOfRow_ok split r1 mn1 mx1 h1mn h1mx
  · intro split
    rw [criterionFor_tail _ _ _ _ hne12, criterionFor_head]
    exact criterionOfRow_badmin split r2 h2
  · intro split
    rw [criterionFor_tail _ _ _ _ hne13, criterionFor_tail _ _ _ _ hne23,
      criterionFor_head]
    exact criterionOfRow_ok split r3 mn3 mx3 h3mn h3mx
  · rw [gs_run_cons, gs_run_cons,
      show (reindexSkip1 env).loadFails = env.loadFails from rfl]
    cases hl : env.loadFails with
    | true => rfl
    | false =>
      simp only [List.map_cons, List.map_nil]
      rw [gsCriteria_skip_row2 env r1 r2 r3 hne12 hne13 hne23 h2]
  · rw [ml_run_cons, ml_run_cons,
      show (reindexSkip1 env).loadFails = env.loadFails from rfl]
    cases hl : env.loadFails with
    | true => rfl
    | false =>
      simp only [List.map_cons, List.map_nil]
      rw [mlCriteria_skip_row2 env r1 r2 r3 hne12 hne13 hne23 h2]
  · rw [amz_run_cons, amz_run_cons,
      show (reindexSkip1 env).loadFails = env.loadFails from rfl]
    cases hl : env.loadFails with
    | true => rfl
    | false =>
      simp only [List.map_cons, List.map_nil]
      rw [amzCriteria_skip_row2 env r1 r2 r3 hne12 hne13 hne23 h2]

/-- C8 witness: the three-row list (`"prod-a"` ok, `"prod-b"` with
min_price `"abc"`, `"prod-c"` ok) under a concrete environment runs as
the two-row list under the reindexed environment. -/
theorem c8_partial_failure_batch_continues_witness :
    search_on_google_shopping (.str "u")
      (.df [⟨"prod-a", .num 10, .num 100, "zzz"⟩,
            ⟨"prod-b", .str "abc", .num 100, "zzz"⟩,
            ⟨"prod-c", .num 10, .num 100, "zzz"⟩])
      ⟨false, fun _ => true, fun _ => true,
        fun i => if i = 0 then [⟨some "item a", some "R$ 50,00", some "la"⟩]
          else if i = 2 then [⟨some "item c", some "R$ 50,00", some "lc"⟩]
          else []⟩ =
      search_on_google_shopping (.str "u")
        (.df [⟨"prod-a", .num 10, .num 100, "zzz"⟩,
              ⟨"prod-c", .num 10, .num 100, "zzz"⟩])
        (reindexSkip1
          ⟨false, fun _ => true, fun _ => true,
            fun i => if i = 0 then
                [⟨some "item a", some "R$ 50,00", some "la"⟩]
              else if i = 2 then
                [⟨some "item c", some "R$ 50,00", some "lc"⟩]
              else []⟩) :=
  (c8_partial_failure_batch_continues
    ⟨"prod-a", .num 10, .num 100, "zzz"⟩
    ⟨"prod-b", .str "abc", .num 100, "zzz"⟩
    ⟨"prod-c", .num 10, .num 100, "zzz"⟩
    ⟨false, fun _ => true, fun _ => true,
      fun i => if i = 0 then [⟨some "item a", some "R$ 50,00", some "la"⟩]
        else if i = 2 then [⟨some "item c", some "R$ 50,00", some "lc"⟩]
        else []⟩
    "u" "abc" 10 100 10 100
    (by decide) (by decide) (by decide) rfl (by decide)
    rfl rfl rfl rfl).2.2.2.1
